import Mathlib

/-
Verification development for `collect_yt_keywords.py` (trending collector).

The script is embedded shallowly: JSON values become the inductive `JVal`;
Python dynamic-typing failures (AttributeError on `.get` of a non-dict,
TypeError on slicing or iterating a non-sequence) become the `PyErr` error
component of `Except`; the single HTTP exchange of `query_trending` is
abstracted as a parameter `rem : Except String JVal` (an exception message or
the parsed JSON body), while the pure request construction (parameter
clamping and the query parameters) is embedded as `query_trending`.
Filesystem writes are represented by the values a run writes: the JSON
bundle and the CSV rows.
-/

namespace CollectYT

/-- A JSON value as produced by `json.loads`, also covering the Python
values (`None`, strings, dicts) the script manipulates. Objects are
association lists with the first binding of a key the visible one. -/
inductive JVal where
  | null
  | bool (b : Bool)
  | num (n : Int)
  | str (s : String)
  | arr (xs : List JVal)
  | obj (fields : List (String × JVal))

/-- Python truthiness of a value (`if not items:` etc.). -/
def truthy : JVal → Bool
  | .null => false
  | .bool b => b
  | .num n => n != 0
  | .str s => s != ""
  | .arr xs => !xs.isEmpty
  | .obj fs => !fs.isEmpty

/-- `isinstance(v, dict)`. -/
def isDict : JVal → Bool
  | .obj _ => true
  | _ => false

/-- A dynamic-typing exception: `AttributeError` (`.get` on a non-dict) or
`TypeError` (slicing or iterating a non-sequence). -/
inductive PyErr where
  | attrError
  | typeErr

/-- Lookup in a dict's association list with a default (`dict.get(k, d)`). -/
def dictGet (fs : List (String × JVal)) (k : String) (d : JVal) : JVal :=
  match fs.lookup k with
  | some v => v
  | none => d

/-- `v.get(k)` (default `None`): raises `AttributeError` unless `v` is a dict. -/
def pyGet (v : JVal) (k : String) : Except PyErr JVal :=
  match v with
  | .obj fs => .ok (dictGet fs k .null)
  | _ => .error .attrError

/-- `v.get(k, d)`: raises `AttributeError` unless `v` is a dict. -/
def pyGetD (v : JVal) (k : String) (d : JVal) : Except PyErr JVal :=
  match v with
  | .obj fs => .ok (dictGet fs k d)
  | _ => .error .attrError

/-- Python `a or b`. -/
def pyOr (a b : JVal) : JVal :=
  if truthy a then a else b

/-- Python `k in v` for the dict case (the script only evaluates it after an
`isinstance(v, dict)` guard). -/
def pyContains (v : JVal) (k : String) : Bool :=
  match v with
  | .obj fs => (fs.lookup k).isSome
  | _ => false

/-- The first `n` characters of a string (Python `s[:n]` for `n ≥ 0`). -/
def strTake (s : String) (n : Nat) : String :=
  String.mk (s.toList.take n)

/-- Python slicing `v[:n]`: truncates a string or a list, `TypeError` otherwise. -/
def pySliceTo (v : JVal) (n : Nat) : Except PyErr JVal :=
  match v with
  | .str s => .ok (.str (strTake s n))
  | .arr xs => .ok (.arr (xs.take n))
  | _ => .error .typeErr

/-- Python `for x in v`: a list yields its elements, a string its characters,
a dict its keys; other values raise `TypeError`. -/
def pyIter : JVal → Except PyErr (List JVal)
  | .arr xs => .ok xs
  | .str s => .ok (s.toList.map (fun c => .str (String.mk [c])))
  | .obj fs => .ok (fs.map (fun p => .str p.1))
  | _ => .error .typeErr

/-- One CSV row as built in `save_csv`, before serialization. -/
structure Row where
  videoId : JVal
  title : JVal
  channelTitle : JVal
  viewCount : JVal

/-- The loop body of `save_csv` for one item of the items list:

    vid = item.get("id")
    if isinstance(vid, dict):
        video_id = vid.get("videoId") or vid.get("kind")
    else:
        video_id = vid
    snippet = item.get("snippet", {})
    stats = item.get("statistics", {})
    rows.append({"videoId": video_id or "",
                 "title": snippet.get("title", "")[:500],
                 "channelTitle": snippet.get("channelTitle", "")[:200],
                 "viewCount": stats.get("viewCount", "")})
-/
def extractVideoId (vid : JVal) : JVal :=
  match vid with
  | .obj fs => pyOr (dictGet fs "videoId" .null) (dictGet fs "kind" .null)
  | _ => vid

/-- See the listing on `extractVideoId`: one iteration of the row loop of
`save_csv`, with `extractVideoId` the `isinstance(vid, dict)` branch. -/
def processItem (item : JVal) : Except PyErr Row :=
  match pyGet item "id" with
  | .error e => .error e
  | .ok vid =>
    let video_id := extractVideoId vid
    match pyGetD item "snippet" (.obj []) with
    | .error e => .error e
    | .ok snippet =>
      match pyGetD item "statistics" (.obj []) with
      | .error e => .error e
      | .ok stats =>
        match pyGetD snippet "title" (.str "") with
        | .error e => .error e
        | .ok t0 =>
          match pySliceTo t0 500 with
          | .error e => .error e
          | .ok t =>
            match pyGetD snippet "channelTitle" (.str "") with
            | .error e => .error e
            | .ok c0 =>
              match pySliceTo c0 200 with
              | .error e => .error e
              | .ok c =>
                match pyGetD stats "viewCount" (.str "") with
                | .error e => .error e
                | .ok w => .ok ⟨pyOr video_id (.str ""), t, c, w⟩

/-- The row loop of `save_csv` over the items list: items are processed in
order and the first exception aborts the whole function. -/
def processItems : List JVal → Except PyErr (List Row)
  | [] => .ok []
  | x :: xs =>
    match processItem x with
    | .error e => .error e
    | .ok r =>
      match processItems xs with
      | .error e => .error e
      | .ok rows => .ok (r :: rows)

/-- The observable outcome of `save_csv` short of an exception: the function
returned `None` having opened no CSV file (`skipped`), or it wrote a CSV file
holding exactly `rows` and returned its path (`written`). -/
inductive CsvOutcome where
  | skipped
  | written (rows : List Row)

/-- `save_csv(all_results)`:

    items = all_results.get("items")
    if not items or not isinstance(items, dict) or "items" not in items:
        print("No items present to write CSV output; skipping CSV."); return None
    rows = [... for item in items.get("items", [])]
    if not rows:
        print("No parsed rows for CSV; skipping CSV."); return None
    <write header + rows>; return csv_path
-/
def save_csv (all_results : JVal) : Except PyErr CsvOutcome :=
  match pyGet all_results "items" with
  | .error e => .error e
  | .ok items =>
    if !truthy items || !isDict items || !pyContains items "items" then
      .ok .skipped
    else
      match pyGetD items "items" (.arr []) with
      | .error e => .error e
      | .ok inner =>
        match pyIter inner with
        | .error e => .error e
        | .ok itemList =>
          match processItems itemList with
          | .error e => .error e
          | .ok rows => if rows.isEmpty then .ok .skipped else .ok (.written rows)

/-- The fixed CSV column order passed to `csv.DictWriter`. -/
def csvFieldnames : List String := ["videoId", "title", "channelTitle", "viewCount"]

/-- The cells of one data row, in `csvFieldnames` order. -/
def rowCells (r : Row) : List JVal := [r.videoId, r.title, r.channelTitle, r.viewCount]

/-- The table the CSV file holds: the header row, then one row per item. -/
def csvTable (rows : List Row) : List (List JVal) :=
  (csvFieldnames.map .str) :: rows.map rowCells

/-- The clamp at the top of `query_trending`:
`if max_results > 50: max_results = 50`. -/
def clampMax (max_results : Int) : Int :=
  if max_results > 50 then 50 else max_results

/-- The default of the `max_results` parameter of `query_trending`
(`max_results: int = 10` in the signature); `main` calls `query_trending`
without passing it. -/
def defaultMaxResults : Int := 10

/-- The request construction of `query_trending(api_key, region, max_results)`:
the `params` dict that is URL-encoded into the GET query string. The HTTP
exchange itself is abstracted (see `main`). -/
def query_trending (api_key region : String) (max_results : Int) : List (String × String) :=
  [("part", "snippet,statistics,contentDetails"),
   ("chart", "mostPopular"),
   ("regionCode", region),
   ("maxResults", toString (clampMax max_results)),
   ("key", api_key)]

/-- The two diagnostic lines `get_api_key` prints before exiting. -/
def apiKeyErrorLines : List String :=
  ["Error: YOUTUBE_API_KEY environment variable is not set.",
   "Set it in GitHub Actions secrets (YOUTUBE_API_KEY) or pass it in the environment."]

/-- `get_api_key()`: `os.environ.get("YOUTUBE_API_KEY")` is `none` when unset;
`if not key:` prints the diagnostics and exits with status 1. -/
def get_api_key (envKey : Option String) : Except (Nat × List String) String :=
  match envKey with
  | none => .error (1, apiKeyErrorLines)
  | some k => if k == "" then .error (1, apiKeyErrorLines) else .ok k

/-- Region resolution in `main`:

    cli_region = sys.argv[1] if len(sys.argv) > 1 else None
    region = cli_region or os.environ.get("YOUTUBE_REGION") or "JP"

`cliArg` is `sys.argv[1]` when present, `envRegion` is the `YOUTUBE_REGION`
environment variable when set. -/
def resolveRegion (cliArg envRegion : Option String) : String :=
  match cliArg with
  | some s =>
    if s != "" then s
    else
      match envRegion with
      | some e => if e != "" then e else "JP"
      | none => "JP"
  | none =>
    match envRegion with
    | some e => if e != "" then e else "JP"
    | none => "JP"

/-- The `try/except` around the remote call in `main`: the parsed JSON body
on success, `{"error": str(exc)}` when `query_trending` raised an exception
with rendering `m`. -/
def remoteData (rem : Except String JVal) : JVal :=
  match rem with
  | .ok j => j
  | .error m => .obj [("error", .str m)]

/-- The `all_results` bundle after `all_results["items"] = data`:
`{"fetched_at": <utc iso>+"Z", "region": region, "items": data}`. -/
def mkBundle (fetchedAt region : String) (data : JVal) : JVal :=
  .obj [("fetched_at", .str (fetchedAt ++ "Z")), ("region", .str region), ("items", data)]

/-- The process environment and command line of one run: the
`YOUTUBE_API_KEY` and `YOUTUBE_REGION` variables (`none` when unset) and
`sys.argv[1:]`. -/
structure Env where
  apiKey : Option String
  regionVar : Option String
  argv : List String

/-- The observable outcome of one run of `main`: the process exit status,
the query parameters of the request that was issued (`none` when the run
aborted before the remote call), the bundle written as the JSON output file
and the rows written as the CSV file (`none` when the file was not written),
and the diagnostic lines printed up to the persistence stage (whose own
messages carry timestamped paths and stay outside the model). -/
structure RunResult where
  exitCode : Nat
  request : Option (List (String × String))
  jsonFile : Option JVal
  csvFile : Option (List Row)
  messages : List String

/-- The body of `main` after region resolution: resolve the key (exit 1 on
failure), issue the request, fold an exception into `{"error": ...}`, then
`save_csv` and `save_output`. An exception escaping `save_csv` is uncaught,
so the interpreter terminates with a traceback (exit status 1) and
`save_output` never runs. -/
def mainWith (envKey : Option String) (region fetchedAt : String)
    (rem : Except String JVal) : RunResult :=
  match get_api_key envKey with
  | .error (code, msgs) =>
    { exitCode := code, request := none, jsonFile := none, csvFile := none,
      messages := msgs }
  | .ok k =>
    let bundle := mkBundle fetchedAt region (remoteData rem)
    let csvRes := save_csv bundle
    { exitCode := match csvRes with | .error _ => 1 | .ok _ => 0,
      request := some (query_trending k region defaultMaxResults),
      jsonFile := match csvRes with | .error _ => none | .ok _ => some bundle,
      csvFile := match csvRes with | .ok (.written rows) => some rows | _ => none,
      messages := ("Fetching trending videos for region: " ++ region) ::
        (match rem with
         | .ok _ => []
         | .error m => ["Failed to query trending videos: " ++ m]) }

/-- `main()`: resolve the region, then run the pipeline. `rem` stands for the
outcome of the single HTTP exchange, `fetchedAt` for the UTC timestamp. -/
def main (e : Env) (fetchedAt : String) (rem : Except String JVal) : RunResult :=
  mainWith e.apiKey (resolveRegion e.argv.head? e.regionVar) fetchedAt rem

/-- Whether a value is a dict containing the key `"items"` — the exact
complement of the skip guard of `save_csv` (a dict with a key is nonempty,
hence truthy). -/
def hasItemsKey : JVal → Bool
  | .obj fs => (fs.lookup "items").isSome
  | _ => false

/-- Whether a value can stand on the right of `[:n]` without a `TypeError`. -/
def sliceable : JVal → Bool
  | .str _ => true
  | .arr _ => true
  | _ => false

/-- A well-shaped element of the items list: a dict whose `snippet` and
`statistics` fields (when present) are dicts and whose `title` and
`channelTitle` (when present) are sliceable — exactly what the loop body of
`save_csv` needs to run without an exception. -/
def itemOk (item : JVal) : Bool :=
  match item with
  | .obj fs =>
    (match dictGet fs "snippet" (.obj []) with
     | .obj sf =>
       sliceable (dictGet sf "title" (.str "")) &&
       sliceable (dictGet sf "channelTitle" (.str ""))
     | _ => false) &&
    (match dictGet fs "statistics" (.obj []) with
     | .obj _ => true
     | _ => false)
  | _ => false

/-- A response value `save_csv` is safe on: either it is not a dict carrying
`"items"` (the guard skips), or the value under `"items"` is a list of
well-shaped items. Error objects `{"error": ...}` and normal API responses
satisfy this. -/
def responseCsvSafe (data : JVal) : Bool :=
  match data with
  | .obj fs =>
    match fs.lookup "items" with
    | some (.arr xs) => xs.all itemOk
    | some _ => false
    | none => true
  | _ => true

/-- The region precedence exactly as the spec sentence words it: the first
positional command-line argument if given, otherwise the `YOUTUBE_REGION`
environment variable if set, otherwise `"JP"`. Stated for comparison with
`resolveRegion`, which the code implements by truthiness. -/
def regionSpecWorded (cliArg envRegion : Option String) : String :=
  match cliArg with
  | some s => s
  | none =>
    match envRegion with
    | some e => e
    | none => "JP"

/-- Helper of `regionSpecAmended`: the environment/default tail of the
amended precedence. -/
def regionSpecAmendedEnv : Option String → String
  | some e => if e ≠ "" then e else "JP"
  | none => "JP"

/-- The amended region precedence: a non-empty first positional command-line
argument if given, otherwise the `YOUTUBE_REGION` environment variable if set
to a non-empty value, otherwise `"JP"`. -/
def regionSpecAmended (cliArg envRegion : Option String) : String :=
  match cliArg with
  | some s =>
    if s ≠ "" then s else regionSpecAmendedEnv envRegion
  | none => regionSpecAmendedEnv envRegion

/-! ## Helper lemmas -/

theorem get_api_key_ok (k : String) (h : k ≠ "") : get_api_key (some k) = .ok k := by
  simp [get_api_key, h]

theorem pyGet_mkBundle (fa reg : String) (data : JVal) :
    pyGet (mkBundle fa reg data) "items" = .ok data := rfl

/-- The skip guard of `save_csv` fires exactly when the response is not a
dict carrying the key `"items"`. -/
theorem save_csv_skip_of_no_items (fa reg : String) (data : JVal)
    (h : hasItemsKey data = false) :
    save_csv (mkBundle fa reg data) = .ok .skipped := by
  unfold save_csv
  rw [pyGet_mkBundle]
  cases data with
  | obj fs =>
    simp only [hasItemsKey] at h
    simp [pyContains, h]
  | null => simp [truthy]
  | bool b => simp [isDict]
  | num n => simp [isDict]
  | str s => simp [isDict]
  | arr xs => simp [isDict]

theorem pySliceTo_ok (v : JVal) (n : Nat) (h : sliceable v = true) :
    ∃ w, pySliceTo v n = .ok w := by
  cases v with
  | str s => exact ⟨_, rfl⟩
  | arr xs => exact ⟨_, rfl⟩
  | null => simp [sliceable] at h
  | bool b => simp [sliceable] at h
  | num n => simp [sliceable] at h
  | obj fs => simp [sliceable] at h

/-- A well-shaped item is processed without an exception. -/
theorem processItem_ok (item : JVal) (h : itemOk item = true) :
    ∃ r, processItem item = .ok r := by
  cases item with
  | obj fs =>
    simp only [itemOk, Bool.and_eq_true] at h
    obtain ⟨h1, h2⟩ := h
    cases hsn : dictGet fs "snippet" (.obj []) with
    | obj sf =>
      rw [hsn] at h1
      simp only [Bool.and_eq_true] at h1
      obtain ⟨ht0, hc0⟩ := h1
      obtain ⟨t, ht⟩ := pySliceTo_ok (dictGet sf "title" (.str "")) 500 ht0
      obtain ⟨c, hc⟩ := pySliceTo_ok (dictGet sf "channelTitle" (.str "")) 200 hc0
      cases hst : dictGet fs "statistics" (.obj []) with
      | obj st =>
        refine ⟨⟨pyOr (extractVideoId (dictGet fs "id" .null)) (.str ""), t, c,
          dictGet st "viewCount" (.str "")⟩, ?_⟩
        simp only [processItem, pyGet, pyGetD, hsn, hst, ht, hc]
      | null => rw [hst] at h2; simp at h2
      | bool b => rw [hst] at h2; simp at h2
      | num n => rw [hst] at h2; simp at h2
      | str s => rw [hst] at h2; simp at h2
      | arr xs => rw [hst] at h2; simp at h2
    | null => rw [hsn] at h1; simp at h1
    | bool b => rw [hsn] at h1; simp at h1
    | num n => rw [hsn] at h1; simp at h1
    | str s => rw [hsn] at h1; simp at h1
    | arr xs => rw [hsn] at h1; simp at h1
  | null => simp [itemOk] at h
  | bool b => simp [itemOk] at h
  | num n => simp [itemOk] at h
  | str s => simp [itemOk] at h
  | arr xs => simp [itemOk] at h

/-- A list of well-shaped items is processed without an exception. -/
theorem processItems_ok (xs : List JVal) (h : xs.all itemOk = true) :
    ∃ rows, processItems xs = .ok rows := by
  induction xs with
  | nil => exact ⟨[], rfl⟩
  | cons x tl ih =>
    simp only [List.all_cons, Bool.and_eq_true] at h
    obtain ⟨hx, htl⟩ := h
    obtain ⟨r, hr⟩ := processItem_ok x hx
    obtain ⟨rows, hrows⟩ := ih htl
    refine ⟨r :: rows, ?_⟩
    simp [processItems, hr, hrows]

/-- On a safe response, `save_csv` terminates normally (skips or writes). -/
theorem save_csv_ok_of_safe (fa reg : String) (data : JVal)
    (h : responseCsvSafe data = true) :
    ∃ o, save_csv (mkBundle fa reg data) = .ok o := by
  cases data with
  | obj fs =>
    cases hl : fs.lookup "items" with
    | none =>
      refine ⟨.skipped, save_csv_skip_of_no_items fa reg _ ?_⟩
      simp [hasItemsKey, hl]
    | some v =>
      simp only [responseCsvSafe, hl] at h
      cases v with
      | arr xs =>
        have hfs : fs.isEmpty = false := by
          cases fs with
          | nil => simp at hl
          | cons p tl => rfl
        obtain ⟨rows, hrows⟩ := processItems_ok xs h
        unfold save_csv
        rw [pyGet_mkBundle]
        simp only [truthy, isDict, pyContains, hfs, hl, Option.isSome_some,
          Bool.not_true, Bool.not_false, Bool.false_or, Bool.or_false,
          if_false, Bool.or_self]
        simp only [pyGetD, dictGet, hl, pyIter, hrows]
        by_cases he : rows.isEmpty <;> simp [he]
      | null => simp at h
      | bool b => simp at h
      | num n => simp at h
      | str s => simp at h
      | obj gs => simp at h
  | null => exact ⟨.skipped, save_csv_skip_of_no_items fa reg _ rfl⟩
  | bool b => exact ⟨.skipped, save_csv_skip_of_no_items fa reg _ rfl⟩
  | num n => exact ⟨.skipped, save_csv_skip_of_no_items fa reg _ rfl⟩
  | str s => exact ⟨.skipped, save_csv_skip_of_no_items fa reg _ rfl⟩
  | arr xs => exact ⟨.skipped, save_csv_skip_of_no_items fa reg _ rfl⟩

/-- When the credential resolves and `save_csv` terminates normally, the run
exits 0, issues the default request, and persists the bundle as JSON. -/
theorem main_components (e : Env) (fa k : String) (rem : Except String JVal)
    (hk : e.apiKey = some k) (hne : k ≠ "") (o : CsvOutcome)
    (hcsv : save_csv (mkBundle fa (resolveRegion e.argv.head? e.regionVar)
      (remoteData rem)) = .ok o) :
    (main e fa rem).exitCode = 0 ∧
    (main e fa rem).request =
      some (query_trending k (resolveRegion e.argv.head? e.regionVar) defaultMaxResults) ∧
    (main e fa rem).jsonFile =
      some (mkBundle fa (resolveRegion e.argv.head? e.regionVar) (remoteData rem)) ∧
    (main e fa rem).csvFile =
      (match o with | .skipped => none | .written rows => some rows) := by
  unfold main mainWith
  rw [hk, get_api_key_ok k hne]
  simp only [hcsv]
  cases o <;> simp

/-- When the credential resolves but `save_csv` raises, the exception is
uncaught: the run exits nonzero and writes no JSON file. -/
theorem main_csv_exception (e : Env) (fa k : String) (rem : Except String JVal)
    (hk : e.apiKey = some k) (hne : k ≠ "") (err : PyErr)
    (hcsv : save_csv (mkBundle fa (resolveRegion e.argv.head? e.regionVar)
      (remoteData rem)) = .error err) :
    (main e fa rem).exitCode = 1 ∧
    (main e fa rem).jsonFile = none ∧
    (main e fa rem).csvFile = none := by
  unfold main mainWith
  rw [hk, get_api_key_ok k hne]
  simp only [hcsv]
  simp

theorem pyOr_nested_id (s : String) :
    pyOr (pyOr (.str s) .null) (.str "") = .str s := by
  by_cases h : s = "" <;> simp [pyOr, truthy, h]

theorem pyOr_bare_id (s : String) :
    pyOr (.str s) (.str "") = .str s := by
  by_cases h : s = "" <;> simp [pyOr, truthy, h]

/-- The row built from an item whose `id` is a dict carrying `videoId`. -/
theorem processItem_nested_id (v t c w : String) :
    processItem (.obj [("id", .obj [("videoId", .str v)]),
                       ("snippet", .obj [("title", .str t), ("channelTitle", .str c)]),
                       ("statistics", .obj [("viewCount", .str w)])]) =
      .ok ⟨.str v, .str (strTake t 500), .str (strTake c 200), .str w⟩ := by
  simp only [processItem, pyGet, pyGetD, dictGet, pySliceTo, extractVideoId]
  simp [pyOr_nested_id, List.lookup]

/-- The row built from an item whose `id` is a bare string. -/
theorem processItem_bare_id (v t c w : String) :
    processItem (.obj [("id", .str v),
                       ("snippet", .obj [("title", .str t), ("channelTitle", .str c)]),
                       ("statistics", .obj [("viewCount", .str w)])]) =
      .ok ⟨.str v, .str (strTake t 500), .str (strTake c 200), .str w⟩ := by
  simp only [processItem, pyGet, pyGetD, dictGet, pySliceTo, extractVideoId]
  simp [pyOr_bare_id, List.lookup]

theorem processItems_pair (i1 i2 : JVal) (r1 r2 : Row)
    (h1 : processItem i1 = .ok r1) (h2 : processItem i2 = .ok r2) :
    processItems [i1, i2] = .ok [r1, r2] := by
  simp [processItems, h1, h2]

/-- When every item processes to a row and at least one row results,
`save_csv` writes exactly those rows. -/
theorem save_csv_written (fa reg : String) (xs : List JVal) (rows : List Row)
    (hmap : processItems xs = .ok rows) (hne : rows.isEmpty = false) :
    save_csv (mkBundle fa reg (.obj [("items", .arr xs)])) = .ok (.written rows) := by
  unfold save_csv
  rw [pyGet_mkBundle]
  simp [truthy, isDict, pyContains, pyGetD, dictGet, List.lookup, pyIter, hmap, hne]

theorem resolveRegion_eq_amended (cliArg envRegion : Option String) :
    resolveRegion cliArg envRegion = regionSpecAmended cliArg envRegion := by
  cases cliArg with
  | none =>
    cases envRegion with
    | none => rfl
    | some e =>
      by_cases he : e = "" <;>
        simp [resolveRegion, regionSpecAmended, regionSpecAmendedEnv, he]
  | some s =>
    by_cases hs : s = ""
    · cases envRegion with
      | none => simp [resolveRegion, regionSpecAmended, regionSpecAmendedEnv, hs]
      | some e =>
        by_cases he : e = "" <;>
          simp [resolveRegion, regionSpecAmended, regionSpecAmendedEnv, hs, he]
    · simp [resolveRegion, regionSpecAmended, hs]

/-! ## Claims -/

/-- C1 (counterexample). The claim says `save_csv` never raises on any
response structure stored under `"items"`. It does raise: on the response
`{"items": [null]}` the loop body calls `.get` on `None` (`AttributeError`),
the exception escapes `save_csv`, and the run aborts before `save_output` —
no JSON file is written and the exit status is nonzero. -/
theorem spec_C1_counterexample :
    save_csv (mkBundle "t" "JP" (.obj [("items", .arr [.null])])) = .error .attrError ∧
    (main ⟨some "K", none, []⟩ "t"
        (.ok (.obj [("items", .arr [.null])]))).jsonFile = none ∧
    (main ⟨some "K", none, []⟩ "t"
        (.ok (.obj [("items", .arr [.null])]))).exitCode = 1 :=
  ⟨rfl, rfl, rfl⟩

/-- C1 (amended). For every response structure stored under `"items"` that is
CSV-safe — it is either not a dict carrying an `"items"` key, or the value
under that key is a list of well-shaped item dicts (error objects and normal
API responses are both such) — `save_csv` writes the CSV or skips it and
never raises; consequently `save_output` runs and the JSON file is written on
every such run. -/
theorem spec_C1_amended (e : Env) (fa k : String) (rem : Except String JVal)
    (hk : e.apiKey = some k) (hne : k ≠ "")
    (hsafe : responseCsvSafe (remoteData rem) = true) :
    (∃ o, save_csv (mkBundle fa (resolveRegion e.argv.head? e.regionVar)
      (remoteData rem)) = .ok o) ∧
    (main e fa rem).exitCode = 0 ∧
    (main e fa rem).jsonFile =
      some (mkBundle fa (resolveRegion e.argv.head? e.regionVar) (remoteData rem)) := by
  obtain ⟨o, ho⟩ :=
    save_csv_ok_of_safe fa (resolveRegion e.argv.head? e.regionVar) (remoteData rem) hsafe
  obtain ⟨h0, _, hj, _⟩ := main_components e fa k rem hk hne o ho
  exact ⟨⟨o, ho⟩, h0, hj⟩

/-- Witness for C1 (amended): a successful run on a well-shaped one-item
response, evaluated concretely. -/
theorem spec_C1_amended_witness :
    (∃ o, save_csv (mkBundle "t" "JP"
      (.obj [("items", .arr [.obj [("id", .str "x"),
                                   ("snippet", .obj [("title", .str "T")]),
                                   ("statistics", .obj [])]])])) = .ok o) ∧
    (main ⟨some "K", none, []⟩ "t"
        (.ok (.obj [("items", .arr [.obj [("id", .str "x"),
                                          ("snippet", .obj [("title", .str "T")]),
                                          ("statistics", .obj [])]])]))).exitCode = 0 ∧
    (main ⟨some "K", none, []⟩ "t"
        (.ok (.obj [("items", .arr [.obj [("id", .str "x"),
                                          ("snippet", .obj [("title", .str "T")]),
                                          ("statistics", .obj [])]])]))).jsonFile =
      some (mkBundle "t" "JP"
        (.obj [("items", .arr [.obj [("id", .str "x"),
                                     ("snippet", .obj [("title", .str "T")]),
                                     ("statistics", .obj [])]])])) :=
  spec_C1_amended ⟨some "K", none, []⟩ "t" "K"
    (.ok (.obj [("items", .arr [.obj [("id", .str "x"),
                                      ("snippet", .obj [("title", .str "T")]),
                                      ("statistics", .obj [])]])]))
    rfl (by decide) (by decide)

/-- C2. Whatever exception the remote trending query raises, `main` catches
it, stores `{"error": <message>}` as the bundle's items, still writes the
JSON output file, and exits with status 0; the recorded message is the
exception's rendering, hence non-empty for the transport errors concerned. -/
theorem spec_C2 (e : Env) (fa k m : String)
    (hk : e.apiKey = some k) (hne : k ≠ "") (hm : m ≠ "") :
    (main e fa (.error m)).exitCode = 0 ∧
    (∃ msg, msg ≠ "" ∧
      (main e fa (.error m)).jsonFile =
        some (mkBundle fa (resolveRegion e.argv.head? e.regionVar)
          (.obj [("error", .str msg)]))) := by
  have hskip : save_csv (mkBundle fa (resolveRegion e.argv.head? e.regionVar)
      (remoteData (.error m))) = .ok .skipped :=
    save_csv_skip_of_no_items _ _ _ rfl
  obtain ⟨h0, _, hj, _⟩ := main_components e fa k (.error m) hk hne .skipped hskip
  exact ⟨h0, m, hm, hj⟩

/-- Witness for C2 at a concrete failing run. -/
theorem spec_C2_witness :
    (main ⟨some "K", none, []⟩ "t" (.error "timed out")).exitCode = 0 ∧
    (∃ msg, msg ≠ "" ∧
      (main ⟨some "K", none, []⟩ "t" (.error "timed out")).jsonFile =
        some (mkBundle "t" "JP" (.obj [("error", .str msg)]))) :=
  spec_C2 ⟨some "K", none, []⟩ "t" "K" "timed out" rfl (by decide) (by decide)

/-- C3. When `YOUTUBE_API_KEY` is unset the process prints the diagnostic
lines, exits with status 1, issues no request and writes neither the JSON
nor the CSV file: credential resolution precedes every filesystem write. -/
theorem spec_C3 (e : Env) (fa : String) (rem : Except String JVal)
    (h : e.apiKey = none) :
    main e fa rem =
      { exitCode := 1, request := none, jsonFile := none, csvFile := none,
        messages := apiKeyErrorLines } := by
  simp [main, mainWith, get_api_key, h]

/-- Witness for C3 at a concrete environment. -/
theorem spec_C3_witness :
    main ⟨none, some "US", ["DE"]⟩ "t" (.ok .null) =
      { exitCode := 1, request := none, jsonFile := none, csvFile := none,
        messages := apiKeyErrorLines } :=
  spec_C3 ⟨none, some "US", ["DE"]⟩ "t" (.ok .null) rfl

/-- C4. When the value stored under the bundle's `"items"` key is not a dict
containing the key `"items"` (an error object, say), `save_csv` returns
`None` having opened no CSV file, while `save_output` still writes the JSON
file and the run exits 0. -/
theorem spec_C4 (e : Env) (fa k : String) (rem : Except String JVal)
    (hk : e.apiKey = some k) (hne : k ≠ "")
    (hshape : hasItemsKey (remoteData rem) = false) :
    save_csv (mkBundle fa (resolveRegion e.argv.head? e.regionVar)
      (remoteData rem)) = .ok .skipped ∧
    (main e fa rem).csvFile = none ∧
    (main e fa rem).jsonFile =
      some (mkBundle fa (resolveRegion e.argv.head? e.regionVar) (remoteData rem)) ∧
    (main e fa rem).exitCode = 0 := by
  have hskip : save_csv (mkBundle fa (resolveRegion e.argv.head? e.regionVar)
      (remoteData rem)) = .ok .skipped :=
    save_csv_skip_of_no_items _ _ _ hshape
  obtain ⟨h0, _, hj, hcsv⟩ := main_components e fa k rem hk hne .skipped hskip
  exact ⟨hskip, hcsv, hj, h0⟩

/-- Witness for C4 on an error-object response. -/
theorem spec_C4_witness :
    save_csv (mkBundle "t" "JP" (.obj [("error", .str "boom")])) = .ok .skipped ∧
    (main ⟨some "K", none, []⟩ "t"
        (.ok (.obj [("error", .str "boom")]))).csvFile = none ∧
    (main ⟨some "K", none, []⟩ "t"
        (.ok (.obj [("error", .str "boom")]))).jsonFile =
      some (mkBundle "t" "JP" (.obj [("error", .str "boom")])) ∧
    (main ⟨some "K", none, []⟩ "t"
        (.ok (.obj [("error", .str "boom")]))).exitCode = 0 :=
  spec_C4 ⟨some "K", none, []⟩ "t" "K" (.ok (.obj [("error", .str "boom")]))
    rfl (by decide) rfl

/-- C5. On a response whose nested items list holds exactly two video items,
one with a dict `id` carrying `videoId` and one with a bare string `id`,
`save_csv` writes the CSV whose table is the fixed header row
(`videoId,title,channelTitle,viewCount`) followed by exactly two data rows,
the `videoId` column populated correctly for both id shapes. -/
theorem spec_C5 (fa reg v1 v2 t1 t2 c1 c2 w1 w2 : String) :
    save_csv (mkBundle fa reg (.obj [("items", .arr
      [.obj [("id", .obj [("videoId", .str v1)]),
             ("snippet", .obj [("title", .str t1), ("channelTitle", .str c1)]),
             ("statistics", .obj [("viewCount", .str w1)])],
       .obj [("id", .str v2),
             ("snippet", .obj [("title", .str t2), ("channelTitle", .str c2)]),
             ("statistics", .obj [("viewCount", .str w2)])]])])) =
      .ok (.written
        [⟨.str v1, .str (strTake t1 500), .str (strTake c1 200), .str w1⟩,
         ⟨.str v2, .str (strTake t2 500), .str (strTake c2 200), .str w2⟩]) ∧
    csvTable
        [⟨.str v1, .str (strTake t1 500), .str (strTake c1 200), .str w1⟩,
         ⟨.str v2, .str (strTake t2 500), .str (strTake c2 200), .str w2⟩] =
      [[.str "videoId", .str "title", .str "channelTitle", .str "viewCount"],
       [.str v1, .str (strTake t1 500), .str (strTake c1 200), .str w1],
       [.str v2, .str (strTake t2 500), .str (strTake c2 200), .str w2]] := by
  constructor
  · exact save_csv_written fa reg _ _
      (processItems_pair _ _ _ _
        (processItem_nested_id v1 t1 c1 w1) (processItem_bare_id v2 t2 c2 w2))
      rfl
  · rfl

/-- C6. Every `max_results` above 50 is clamped to 50 before the request is
built; with 75 requested the outgoing `maxResults` parameter is `"50"`. -/
theorem spec_C6 (k reg : String) (n : Int) (h : n > 50) :
    clampMax n = 50 ∧
    (query_trending k reg n).lookup "maxResults" = some "50" := by
  have hc : clampMax n = 50 := by simp [clampMax, h]
  refine ⟨hc, ?_⟩
  simp only [query_trending, hc]
  rfl

/-- Witness for C6 at the requested value 75. -/
theorem spec_C6_witness :
    clampMax 75 = 50 ∧
    (query_trending "K" "JP" 75).lookup "maxResults" = some "50" :=
  spec_C6 "K" "JP" 75 (by norm_num)

/-- C7 (counterexample). The claimed precedence wording — first positional
argument if given, else environment variable, else `"JP"` — fails on an
empty-string first argument: the code resolves to the environment region
`"US"`, while the claimed wording would use the given `""`. -/
theorem spec_C7_counterexample :
    resolveRegion (some "") (some "US") = "US" ∧
    regionSpecWorded (some "") (some "US") = "" ∧
    ¬ resolveRegion (some "") (some "US") = regionSpecWorded (some "") (some "US") := by
  refine ⟨rfl, rfl, ?_⟩
  decide

/-- C7 (amended). The region for the trending query is resolved with the
precedence: a non-empty first positional command-line argument if given,
otherwise the `YOUTUBE_REGION` environment variable if set to a non-empty
value, otherwise the default `"JP"`; the resolved value is sent as the
`regionCode` request parameter. -/
theorem spec_C7_amended (e : Env) (fa k : String) (rem : Except String JVal)
    (hk : e.apiKey = some k) (hne : k ≠ "") :
    resolveRegion e.argv.head? e.regionVar =
      regionSpecAmended e.argv.head? e.regionVar ∧
    (main e fa rem).request =
      some (query_trending k (regionSpecAmended e.argv.head? e.regionVar)
        defaultMaxResults) ∧
    (query_trending k (regionSpecAmended e.argv.head? e.regionVar)
        defaultMaxResults).lookup "regionCode" =
      some (regionSpecAmended e.argv.head? e.regionVar) := by
  have hr := resolveRegion_eq_amended e.argv.head? e.regionVar
  refine ⟨hr, ?_, ?_⟩
  · rw [← hr]
    unfold main mainWith
    rw [hk, get_api_key_ok k hne]
  · simp [query_trending, List.lookup]

/-- Witness for C7 (amended) at a concrete run: empty CLI argument, region
variable `"US"`. -/
theorem spec_C7_amended_witness :
    resolveRegion (([""] : List String).head?) (some "US") =
      regionSpecAmended (([""] : List String).head?) (some "US") ∧
    (main ⟨some "K", some "US", [""]⟩ "t" (.ok .null)).request =
      some (query_trending "K"
        (regionSpecAmended (([""] : List String).head?) (some "US"))
        defaultMaxResults) ∧
    (query_trending "K"
        (regionSpecAmended (([""] : List String).head?) (some "US"))
        defaultMaxResults).lookup "regionCode" =
      some (regionSpecAmended (([""] : List String).head?) (some "US")) :=
  spec_C7_amended ⟨some "K", some "US", [""]⟩ "t" "K" (.ok .null) rfl (by decide)

/-- C8. A `YOUTUBE_API_KEY` set to the empty string behaves exactly as an
unset one: same run outcome, diagnostic printed, exit status 1, nothing
written — the check is on falsiness, not presence. -/
theorem spec_C8 (e : Env) (fa : String) (rem : Except String JVal)
    (h : e.apiKey = some "") :
    main e fa rem = main ⟨none, e.regionVar, e.argv⟩ fa rem ∧
    (main e fa rem).exitCode = 1 ∧
    (main e fa rem).jsonFile = none ∧
    (main e fa rem).csvFile = none ∧
    (main e fa rem).messages = apiKeyErrorLines := by
  refine ⟨?_, ?_, ?_, ?_, ?_⟩ <;> simp [main, mainWith, get_api_key, h]

/-- Witness for C8 at a concrete environment. -/
theorem spec_C8_witness :
    main ⟨some "", some "US", []⟩ "t" (.ok .null) =
      main ⟨none, some "US", []⟩ "t" (.ok .null) ∧
    (main ⟨some "", some "US", []⟩ "t" (.ok .null)).exitCode = 1 ∧
    (main ⟨some "", some "US", []⟩ "t" (.ok .null)).jsonFile = none ∧
    (main ⟨some "", some "US", []⟩ "t" (.ok .null)).csvFile = none ∧
    (main ⟨some "", some "US", []⟩ "t" (.ok .null)).messages = apiKeyErrorLines :=
  spec_C8 ⟨some "", some "US", []⟩ "t" (.ok .null) rfl

/-- C9. An empty-string first positional argument does not override the
region: the whole run behaves as if no argument had been given, so the
resolution falls through to `YOUTUBE_REGION` and then to `"JP"`. -/
theorem spec_C9 (e : Env) (fa : String) (rem : Except String JVal)
    (h : e.argv.head? = some "") :
    main e fa rem = main ⟨e.apiKey, e.regionVar, []⟩ fa rem ∧
    resolveRegion e.argv.head? e.regionVar = regionSpecAmendedEnv e.regionVar := by
  have hr : resolveRegion (some "") e.regionVar = regionSpecAmendedEnv e.regionVar := by
    cases e.regionVar with
    | none => rfl
    | some s => by_cases hs : s = "" <;> simp [resolveRegion, regionSpecAmendedEnv, hs]
  have hr0 : resolveRegion (none : Option String) e.regionVar =
      regionSpecAmendedEnv e.regionVar := by
    cases e.regionVar with
    | none => rfl
    | some s => by_cases hs : s = "" <;> simp [resolveRegion, regionSpecAmendedEnv, hs]
  constructor
  · unfold main
    rw [h]
    rw [hr]
    rw [show (⟨e.apiKey, e.regionVar, []⟩ : Env).argv.head? = (none : Option String) from rfl]
    rw [hr0]
  · rw [h, hr]

/-- Witness for C9 at a concrete run with an empty first argument. -/
theorem spec_C9_witness :
    main ⟨some "K", some "US", [""]⟩ "t" (.ok .null) =
      main ⟨some "K", some "US", []⟩ "t" (.ok .null) ∧
    resolveRegion (([""] : List String).head?) (some "US") =
      regionSpecAmendedEnv (some "US") :=
  spec_C9 ⟨some "K", some "US", [""]⟩ "t" (.ok .null) rfl

/-- C10. The clamp touches only the upper bound: every `max_results` at most
50 — zero and negative values included — is sent upstream unchanged; and
`main` calls `query_trending` without a `max_results` argument, so every
actual run requests the default of 10 results and the clamp never fires. -/
theorem spec_C10 (n : Int) (hn : n ≤ 50) (e : Env) (fa k : String)
    (rem : Except String JVal) (hk : e.apiKey = some k) (hne : k ≠ "") :
    clampMax n = n ∧
    (query_trending k (resolveRegion e.argv.head? e.regionVar) n).lookup
      "maxResults" = some (toString n) ∧
    (main e fa rem).request =
      some (query_trending k (resolveRegion e.argv.head? e.regionVar)
        defaultMaxResults) ∧
    defaultMaxResults = 10 ∧
    clampMax defaultMaxResults = defaultMaxResults := by
  have hc : clampMax n = n := by
    simp [clampMax]
    omega
  refine ⟨hc, ?_, ?_, rfl, rfl⟩
  · simp [query_trending, hc, List.lookup]
  · unfold main mainWith
    rw [hk, get_api_key_ok k hne]

/-- Witness for C10 at the negative requested value −5 and a concrete run. -/
theorem spec_C10_witness :
    clampMax (-5) = -5 ∧
    (query_trending "K" (resolveRegion (([] : List String).head?) none) (-5)).lookup
      "maxResults" = some (toString (-5 : Int)) ∧
    (main ⟨some "K", none, []⟩ "t" (.ok .null)).request =
      some (query_trending "K" (resolveRegion (([] : List String).head?) none)
        defaultMaxResults) ∧
    defaultMaxResults = 10 ∧
    clampMax defaultMaxResults = defaultMaxResults :=
  spec_C10 (-5) (by norm_num) ⟨some "K", none, []⟩ "t" "K" (.ok .null) rfl (by decide)

end CollectYT
